import Mathlib

/-!
Shallow embedding of the `gargle` library (src/gargle/maybe.py and
src/gargle/result.py): two algebraic container types, `Maybe` (variants
`Some`/`Nothing`) and `Result` (variants `Ok`/`Err`), together with the
combinators the claims refer to.  Python's dynamic values, exceptions and
indexing are embedded explicitly where a claim depends on them.
-/

namespace Gargle

/-- The optional type of src/gargle/maybe.py: `Maybe = Some[ValueT] | Nothing[ValueT]`,
two immutable dataclass variants. -/
inductive Maybe (α : Type) where
  | Some (v : α)
  | Nothing
deriving DecidableEq, Repr

/-- The result type of src/gargle/result.py: `Result = Ok[OkT, ErrT] | Err[OkT, ErrT]`,
two immutable dataclass variants. -/
inductive Result (α ε : Type) where
  | Ok (v : α)
  | Err (e : ε)
deriving DecidableEq, Repr

/-- Several combinators (`ok_or`, `or_`, `from_maybe`, ...) accept either a plain
value or a zero-argument callable, discriminated at run time by `callable(...)`.
This sum embeds that union of the two argument shapes. -/
inductive ValueOrThunk (ε : Type) where
  | val (e : ε)
  | func (f : Unit → ε)

/-- `Some.map` / `Nothing.map` (src/gargle/maybe.py): on `Some(v)` returns
`Some(func(v))`, on `Nothing` returns `Nothing()`. -/
def Maybe.map (m : Maybe α) (func : α → β) : Maybe β :=
  match m with
  | .Some v => .Some (func v)
  | .Nothing => .Nothing

/-- `_MaybeInternal.is_some` (src/gargle/maybe.py): `isinstance(self, Some)`. -/
def Maybe.is_some (m : Maybe α) : Bool :=
  match m with
  | .Some _ => true
  | .Nothing => false

/-- `_MaybeInternal.is_nothing` (src/gargle/maybe.py): `isinstance(self, Nothing)`. -/
def Maybe.is_nothing (m : Maybe α) : Bool :=
  match m with
  | .Some _ => false
  | .Nothing => true

/-- `Some.ok_or` / `Nothing.ok_or` (src/gargle/maybe.py): `Some(v)` becomes
`Ok(v)` (the `err` argument is never touched); `Nothing()` becomes
`Err(err())` if `err` is callable else `Err(err)`. -/
def Maybe.ok_or (m : Maybe α) (err : ValueOrThunk ε) : Result α ε :=
  match m with
  | .Some v => .Ok v
  | .Nothing =>
    match err with
    | .val e => .Err e
    | .func f => .Err (f ())

/-- `Ok.map` / `Err.map` (src/gargle/result.py): on `Ok(v)` returns
`Ok(func(v))`, on `Err(e)` returns `Err(e)` unchanged. -/
def Result.map (r : Result α ε) (func : α → β) : Result β ε :=
  match r with
  | .Ok v => .Ok (func v)
  | .Err e => .Err e

/-- `Ok.ok` / `Err.ok` (src/gargle/result.py): `Ok(v)` becomes `Some(v)`,
`Err(_)` becomes `Nothing()`. -/
def Result.ok (r : Result α ε) : Maybe α :=
  match r with
  | .Ok v => .Some v
  | .Err _ => .Nothing

/-- The exceptions the `unwrap` embedding can raise: `UnwrapError(e)`
(class `UnwrapError` of src/gargle/result.py) or `exc(e)` for a
caller-supplied exception constructor, identified here by a numeric tag. -/
inductive UnwrapExc (ε : Type) where
  | unwrapError (e : ε)
  | custom (tag : Nat) (e : ε)
deriving DecidableEq

/-- `_ResultInternal.unwrap` (src/gargle/result.py): returns the value on
`Ok`; on `Err(err)` raises `exc(err)` when an exception constructor `exc`
was supplied, else raises `UnwrapError(err)`.  A raised exception is
embedded as the `Except.error` branch. -/
def Result.unwrap (r : Result α ε) (exc : Option Nat) : Except (UnwrapExc ε) α :=
  match r with
  | .Ok v => .ok v
  | .Err err =>
    match exc with
    | some tag => .error (.custom tag err)
    | none => .error (.unwrapError err)

/-- The loop of `sequence` (src/gargle/maybe.py), with the iterator made
explicit: starting from the accumulator `res`, draw elements one by one;
a `Some(value)` is appended to `res`, the first `Nothing()` returns
`Nothing()` immediately.  The second component is the part of the input the
loop never drew, so that short-circuiting is observable. -/
def sequenceLoop (res : List α) : List (Maybe α) → Maybe (List α) × List (Maybe α)
  | [] => (.Some res, [])
  | .Some value :: rest => sequenceLoop (res ++ [value]) rest
  | .Nothing :: rest => (.Nothing, rest)

/-- `sequence` (src/gargle/maybe.py): turns an iterable of `Maybe`s into a
`Maybe` list, `Nothing()` if any element is `Nothing()`. -/
def sequence (mayb_iter : List (Maybe α)) : Maybe (List α) :=
  (sequenceLoop [] mayb_iter).1

/-- `Some.zip` / `Nothing.zip` (src/gargle/maybe.py): on `Some(v)`, runs
`sequence` on the arguments and prepends `v` to the resulting values; on
`Nothing`, returns `Nothing()`.  The variadic `*maybs` tuple is embedded
as a list (the overloads allow one to five arguments). -/
def Maybe.zip (m : Maybe α) (maybs : List (Maybe α)) : Maybe (List α) :=
  match m with
  | .Some v =>
    match sequence maybs with
    | .Some values => .Some (v :: values)
    | .Nothing => .Nothing
  | .Nothing => .Nothing

/-- `Some.zip_with` / `Nothing.zip_with` (src/gargle/maybe.py): on `Some`,
returns `self.zip(*maybs).map(lambda values: func(*values))`; on `Nothing`,
returns `Nothing()` directly.  The argument-unpacking call `func(*values)`
is embedded as a function on the list of values. -/
def Maybe.zip_with (m : Maybe α) (func : List α → β) (maybs : List (Maybe α)) : Maybe β :=
  match m with
  | .Some _ => (m.zip maybs).map func
  | .Nothing => .Nothing

/-- `Some.from_maybe` / `Nothing.from_maybe` (src/gargle/maybe.py): `Some`
returns its wrapped value, the `default` argument is never touched;
`Nothing` returns `default()` if `default` is callable else `default`.
The source's implicit `default=None` is the value default `PyVal.none` at
the dynamic-value instantiation. -/
def Maybe.from_maybe (m : Maybe α) (default : ValueOrThunk α) : α :=
  match m with
  | .Some value => value
  | .Nothing =>
    match default with
    | .val d => d
    | .func f => f ()

/-- Python values as far as the indexing and null-wrapping claims need them:
the `None` singleton, integers, strings, lists, and string-keyed
dictionaries. -/
inductive PyVal where
  | none
  | int (n : Int)
  | str (s : String)
  | list (xs : List PyVal)
  | dict (kvs : List (String × PyVal))

/-- The exceptions Python's `container[key]` can raise on the values of
`PyVal`: `KeyError`, `IndexError`, `TypeError`. -/
inductive PyExc where
  | keyError
  | indexError
  | typeError
deriving DecidableEq, Repr

/-- Python list indexing `xs[i]`: negative indices count from the end,
anything out of range raises `IndexError`. -/
def pyListGet (xs : List PyVal) (i : Int) : Except PyExc PyVal :=
  let j : Int := if i < 0 then i + xs.length else i
  if 0 ≤ j then
    match xs.get? j.toNat with
    | some v => .ok v
    | Option.none => .error .indexError
  else .error .indexError

/-- Python string indexing `s[i]`: yields a one-character string, negative
indices count from the end, anything out of range raises `IndexError`. -/
def pyStrGet (s : String) (i : Int) : Except PyExc PyVal :=
  let cs := s.toList
  let j : Int := if i < 0 then i + cs.length else i
  if 0 ≤ j then
    match cs.get? j.toNat with
    | some ch => .ok (.str (String.mk [ch]))
    | Option.none => .error .indexError
  else .error .indexError

/-- Python's subscript expression `container[key]` on the embedded values:
lists and strings demand an integer key (`TypeError` otherwise) and raise
`IndexError` out of range; dictionaries raise `KeyError` for a missing
hashable key and `TypeError` for an unhashable key (a list or dict); every
other container shape is not subscriptable and raises `TypeError`. -/
def pyIndex (container key : PyVal) : Except PyExc PyVal :=
  match container, key with
  | .list xs, .int i => pyListGet xs i
  | .list _, _ => .error .typeError
  | .str s, .int i => pyStrGet s i
  | .str _, _ => .error .typeError
  | .dict kvs, .str k =>
    match List.lookup k kvs with
    | some v => .ok v
    | Option.none => .error .keyError
  | .dict _, .list _ => .error .typeError
  | .dict _, .dict _ => .error .typeError
  | .dict _, _ => .error .keyError
  | _, _ => .error .typeError

/-- `maybe_get` (src/gargle/maybe.py): `try: return Some(some_seq[key])`
with `except (KeyError, IndexError): return Nothing()` — any other raised
exception propagates, embedded as the `Except.error` branch. -/
def maybe_get (some_seq key : PyVal) : Except PyExc (Maybe PyVal) :=
  match pyIndex some_seq key with
  | .ok v => .ok (.Some v)
  | .error e =>
    if e = PyExc.keyError ∨ e = PyExc.indexError then .ok .Nothing
    else .error e

/-- `Some.get` / `Nothing.get` (src/gargle/maybe.py): on `Some`,
`try: return self.map(lambda v: v[key])` with
`except (IndexError, KeyError, TypeError): return Nothing()`; on `Nothing`,
returns `Nothing()`.  An uncaught exception would be the `Except.error`
branch. -/
def Maybe.get (m : Maybe PyVal) (key : PyVal) : Except PyExc (Maybe PyVal) :=
  match m with
  | .Some v =>
    match pyIndex v key with
    | .ok w => .ok (.Some w)
    | .error e =>
      if e = PyExc.indexError ∨ e = PyExc.keyError ∨ e = PyExc.typeError
      then .ok .Nothing
      else .error e
  | .Nothing => .ok .Nothing

/-- `as_maybe` (src/gargle/maybe.py): `Nothing()` if `value is None`, else
`Some(value)`. -/
def as_maybe (value : PyVal) : Maybe PyVal :=
  match value with
  | .none => .Nothing
  | _ => .Some value

/-- Dynamic values as the computation-wrapping claims need them: opaque
values, exception objects, and values that are themselves already a
`Result` of the library (what `isinstance(res, (Ok, Err))` tests). -/
inductive RVal where
  | atom (n : Nat)
  | excObj (n : Nat)
  | resultVal (r : Result RVal RVal)

/-- The `isinstance(res, (Ok, Err))` test of `result_wrapped`
(src/gargle/result.py) on the embedded dynamic values. -/
def isResultInstance : RVal → Bool
  | .resultVal _ => true
  | _ => false

/-- The wrapper built by `result_wrapped` (src/gargle/result.py), applied to
the outcome of calling the decorated function (`Except.ok` a returned value,
`Except.error` a raised exception): a returned value that is already an
`Ok`/`Err` passes through unwrapped, any other returned value is wrapped in
`Ok`, and a raised exception is caught and wrapped in `Err`. -/
def result_wrapped (call : Except RVal RVal) : Result RVal RVal :=
  match call with
  | .ok res =>
    match res with
    | .resultVal r => r
    | _ => .Ok res
  | .error exc => .Err exc

/-- A Python exception object as `except` clauses see it: `classes` lists
the identifiers of the exception's type and of all its base classes (so
instance tests against a base class succeed), `payload` stands for its
arguments. -/
structure PyException where
  classes : List Nat
  payload : Nat
deriving DecidableEq, Repr

/-- The `excs_to_catch` argument of `result_wrapped_for`
(src/gargle/result.py): a single exception type or a tuple of exception
types, identified by numeric tags. -/
inductive ExcsToCatch where
  | single (c : Nat)
  | tuple (cs : List Nat)

/-- The exception types an `except excs_to_catch` clause checks against. -/
def catchSet : ExcsToCatch → List Nat
  | .single c => [c]
  | .tuple cs => cs

/-- Whether `except excs_to_catch` catches the raised exception `e`: `e` is
an instance of one of the named types (its class list meets the catch
set). -/
def isInstanceOfAny (excs : ExcsToCatch) (e : PyException) : Bool :=
  (catchSet excs).any (fun c => e.classes.contains c)

/-- The wrapper built by `result_wrapped_for(excs_to_catch)`
(src/gargle/result.py), applied to the outcome of calling the decorated
function: a returned value is wrapped in `Ok`; a raised exception matching
`excs_to_catch` is caught and wrapped in `Err`; any other raised exception
propagates unchanged. -/
def result_wrapped_for (excs_to_catch : ExcsToCatch)
    (call : Except PyException α) : Except PyException (Result α PyException) :=
  match call with
  | .ok v => .ok (.Ok v)
  | .error exc =>
    if isInstanceOfAny excs_to_catch exc then .ok (.Err exc) else .error exc

end Gargle

namespace Gargle

/-! ### Theorems for the claims that need only the generic containers -/

/-- C5: functor composition law for `map` on both containers: mapping `f`
then `g` equals mapping the composite, and on the `Some`/`Ok` variant both
sides wrap `g (f v)` while on the `Nothing`/`Err` variant both sides are the
absent/failure value unchanged. -/
theorem map_composition_law {α β γ ε : Type} (f : α → β) (g : β → γ)
    (x : Maybe α) (r : Result α ε) (v : α) (e : ε) :
    (x.map f).map g = x.map (fun a => g (f a)) ∧
    (r.map f).map g = r.map (fun a => g (f a)) ∧
    ((Maybe.Some v).map f).map g = Maybe.Some (g (f v)) ∧
    ((Maybe.Nothing : Maybe α).map f).map g = Maybe.Nothing ∧
    (Maybe.Nothing : Maybe α).map (fun a => g (f a)) = Maybe.Nothing ∧
    ((Result.Ok v : Result α ε).map f).map g = Result.Ok (g (f v)) ∧
    ((Result.Err e : Result α ε).map f).map g = Result.Err e ∧
    (Result.Err e : Result α ε).map (fun a => g (f a)) = Result.Err e := by
  refine ⟨?_, ?_, rfl, rfl, rfl, rfl, rfl, rfl⟩
  · cases x <;> rfl
  · cases r <;> rfl

/-- C6: conversion between `Maybe` and `Result` round-trips:
`Some(v).ok_or(err).ok() = Some(v)`, `Nothing().ok_or(err).ok() = Nothing()`,
and `Ok(v).ok().ok_or(err) = Ok(v)`; the `err` argument (value or callable)
is never used on the present/success path. -/
theorem ok_or_ok_round_trip {α ε : Type} (v : α) (err : ValueOrThunk ε) :
    ((Maybe.Some v).ok_or err).ok = Maybe.Some v ∧
    ((Maybe.Nothing : Maybe α).ok_or err).ok = Maybe.Nothing ∧
    ((Result.Ok v : Result α ε).ok).ok_or err = Result.Ok v := by
  refine ⟨rfl, ?_, rfl⟩
  cases err <;> rfl

/-- C3: `Result.unwrap` returns the wrapped value on `Ok(v)` (ignoring the
optional exception constructor), raises `UnwrapError(e)` on `Err(e)` with no
constructor, raises `exc(e)` when a constructor is supplied, and raises if
and only if the receiver is an `Err`. -/
theorem unwrap_spec {α ε : Type} (v : α) (e : ε) (tag : Nat) (exc : Option Nat) :
    (Result.Ok v : Result α ε).unwrap exc = Except.ok v ∧
    (Result.Err e : Result α ε).unwrap none = Except.error (UnwrapExc.unwrapError e) ∧
    (Result.Err e : Result α ε).unwrap (some tag) = Except.error (UnwrapExc.custom tag e) ∧
    (∀ r : Result α ε,
      (∃ ex, r.unwrap exc = Except.error ex) ↔ ∃ er, r = Result.Err er) := by
  refine ⟨?_, rfl, rfl, ?_⟩
  · cases exc <;> rfl
  · intro r
    cases r with
    | Ok w =>
      constructor
      · rintro ⟨ex, hex⟩
        cases exc <;> exact absurd hex (by simp [Result.unwrap])
      · rintro ⟨er, her⟩
        exact absurd her (by simp)
    | Err er =>
      constructor
      · intro _
        exact ⟨er, rfl⟩
      · intro _
        cases exc with
        | none => exact ⟨.unwrapError er, rfl⟩
        | some tg => exact ⟨.custom tg er, rfl⟩

/-- C9: `sequence` of the empty iterable is `Some([])`, not `Nothing()`. -/
theorem sequence_empty_is_some_nil (α : Type) :
    sequence ([] : List (Maybe α)) = Maybe.Some [] := rfl

/-- C8: `zip_with` is definable from `zip` and `map`: for every `Maybe`
receiver, function and argument list,
`x.zip_with(f, o1..on) = x.zip(o1..on).map(lambda values: f(*values))`. -/
theorem zip_with_eq_zip_map {α β : Type} (x : Maybe α) (f : List α → β)
    (maybs : List (Maybe α)) :
    x.zip_with f maybs = (x.zip maybs).map f := by
  cases x <;> rfl

/-- Helper: on an all-`Some` input the `sequence` loop appends every wrapped
value to the accumulator, in order, and drains the whole input. -/
theorem sequenceLoop_all_some {α : Type} (vs : List α) (acc : List α) :
    sequenceLoop acc (vs.map Maybe.Some) = (Maybe.Some (acc ++ vs), []) := by
  induction vs generalizing acc with
  | nil => simp [sequenceLoop]
  | cons v rest ih => simp [sequenceLoop, ih]

/-- Helper: when the input is all-`Some` values followed by a `Nothing`, the
`sequence` loop stops at that `Nothing`, leaving everything after it
undrawn. -/
theorem sequenceLoop_first_nothing {α : Type} (vs : List α)
    (post : List (Maybe α)) (acc : List α) :
    sequenceLoop acc (vs.map Maybe.Some ++ Maybe.Nothing :: post)
      = (Maybe.Nothing, post) := by
  induction vs generalizing acc with
  | nil => rfl
  | cons v rest ih => simpa [sequenceLoop] using ih (acc ++ [v])

/-- Helper: the `sequence` loop yields `Nothing` whenever the input contains
a `Nothing`, whatever the accumulator. -/
theorem sequenceLoop_mem_nothing {α : Type} (ms : List (Maybe α))
    (acc : List α) (h : Maybe.Nothing ∈ ms) :
    (sequenceLoop acc ms).1 = Maybe.Nothing := by
  induction ms generalizing acc with
  | nil => cases h
  | cons m rest ih =>
    cases m with
    | Nothing => rfl
    | Some v =>
      rcases List.mem_cons.mp h with hv | hrest
      · exact absurd hv (by simp)
      · simpa [sequenceLoop] using ih (acc ++ [v]) hrest

/-- C4: `sequence` of an all-present list is `Some` of the unwrapped values
in input order; it is `Nothing` as soon as any element is `Nothing`,
wherever that element sits; and it short-circuits — the loop stops at the
first `Nothing`, leaving the elements after it undrawn from the iterator. -/
theorem sequence_spec {α : Type} (vs : List α) (ms post : List (Maybe α)) :
    sequence (vs.map Maybe.Some) = Maybe.Some vs ∧
    (Maybe.Nothing ∈ ms → sequence ms = Maybe.Nothing) ∧
    sequence (vs.map Maybe.Some ++ Maybe.Nothing :: post) = Maybe.Nothing ∧
    (sequenceLoop [] (vs.map Maybe.Some ++ Maybe.Nothing :: post)).2 = post := by
  refine ⟨?_, ?_, ?_, ?_⟩
  · simp [sequence, sequenceLoop_all_some]
  · intro h
    exact sequenceLoop_mem_nothing ms [] h
  · simp [sequence, sequenceLoop_first_nothing]
  · simp [sequenceLoop_first_nothing]

/-- C4 witness: the claim at a concrete input — an absent element in second
position makes `sequence` return `Nothing` and leaves the third element
undrawn. -/
theorem sequence_spec_witness :
    sequence ([1, 2, 3].map Maybe.Some) = Maybe.Some [1, 2, 3] ∧
    sequence [Maybe.Some 1, Maybe.Nothing, Maybe.Some 3] = Maybe.Nothing ∧
    (sequenceLoop [] [Maybe.Some 1, Maybe.Nothing, Maybe.Some 3]).2
      = [Maybe.Some 3] := by
  refine ⟨(sequence_spec [1, 2, 3] [] []).1, ?_, ?_⟩
  · exact (sequence_spec [] [Maybe.Some 1, Maybe.Nothing, Maybe.Some 3] []).2.1
      (by decide)
  · exact (sequence_spec [1] [] [Maybe.Some 3]).2.2.2

/-- C2: the wrapper made by `result_wrapped` returns `Ok(res)` when the
wrapped function returns a value `res` that is not already a `Result`,
returns `Err(exc)` with the exact raised exception object when it raises,
and passes an already-`Result` return value through unchanged instead of
double-wrapping it. -/
theorem result_wrapped_spec :
    (∀ res : RVal, isResultInstance res = false →
      result_wrapped (Except.ok res) = Result.Ok res) ∧
    (∀ exc : RVal, result_wrapped (Except.error exc) = Result.Err exc) ∧
    (∀ r : Result RVal RVal,
      result_wrapped (Except.ok (RVal.resultVal r)) = r) := by
  refine ⟨?_, fun _ => rfl, fun _ => rfl⟩
  intro res h
  cases res with
  | atom n => rfl
  | excObj n => rfl
  | resultVal r => simp [isResultInstance] at h

/-- C7: the wrapper made by `result_wrapped_for(excs_to_catch)` wraps a
normal return in `Ok`; a raised exception that is an instance of the given
type (or of one of the given tuple of types) is caught as `Err` of that
exact exception object; a raised exception outside the catch set propagates
unchanged. -/
theorem result_wrapped_for_spec {α : Type} (excs : ExcsToCatch) (v : α)
    (e : PyException) :
    result_wrapped_for excs (Except.ok v) = Except.ok (Result.Ok v) ∧
    (isInstanceOfAny excs e = true →
      result_wrapped_for excs (Except.error e : Except PyException α)
        = Except.ok (Result.Err e)) ∧
    (isInstanceOfAny excs e = false →
      result_wrapped_for excs (Except.error e : Except PyException α)
        = Except.error e) := by
  refine ⟨rfl, fun h => ?_, fun h => ?_⟩ <;> simp [result_wrapped_for, h]

/-- C7 witness: the claim at concrete inputs — an exception whose class list
is `[0, 1]` is caught by `except` on type `0` (a base class) and not caught
by `except` on type `2`, where it propagates. -/
theorem result_wrapped_for_spec_witness :
    result_wrapped_for (ExcsToCatch.single 0)
        (Except.error (⟨[0, 1], 5⟩ : PyException) : Except PyException Nat)
      = Except.ok (Result.Err ⟨[0, 1], 5⟩) ∧
    result_wrapped_for (ExcsToCatch.single 2)
        (Except.error (⟨[0, 1], 5⟩ : PyException) : Except PyException Nat)
      = Except.error ⟨[0, 1], 5⟩ := by
  exact ⟨(result_wrapped_for_spec (ExcsToCatch.single 0) (0 : Nat) ⟨[0, 1], 5⟩).2.1
      (by decide),
    (result_wrapped_for_spec (ExcsToCatch.single 2) (0 : Nat) ⟨[0, 1], 5⟩).2.2
      (by decide)⟩

/-- C1 counterexample: on the non-indexable container `5`, indexing raises
`TypeError`; `maybe_get` does not catch it and propagates, while
`Some(5).get(0)` catches it and returns `Nothing()` — so `maybe_get` does
not have the same semantics as `.get`. -/
theorem maybe_get_raises_on_non_indexable :
    maybe_get (PyVal.int 5) (PyVal.int 0) = Except.error PyExc.typeError ∧
    (Maybe.Some (PyVal.int 5)).get (PyVal.int 0) = Except.ok Maybe.Nothing ∧
    maybe_get (PyVal.int 5) (PyVal.int 0)
      ≠ (Maybe.Some (PyVal.int 5)).get (PyVal.int 0) := by
  refine ⟨rfl, rfl, fun h => ?_⟩
  rw [show maybe_get (PyVal.int 5) (PyVal.int 0) = Except.error PyExc.typeError
        from rfl,
      show (Maybe.Some (PyVal.int 5)).get (PyVal.int 0) = Except.ok Maybe.Nothing
        from rfl] at h
  exact Except.noConfusion h

/-- C1 as amended: `maybe_get` catches only `KeyError` and `IndexError`, so
it agrees with `Some(container).get(key)` — `Present(container[key])` on
success, `Absent` on a key or index failure — whenever indexing does not
raise `TypeError`; on a `TypeError` (non-indexable container or wrong key
type) `maybe_get` propagates the exception while `.get` returns `Absent`. -/
theorem maybe_get_matches_get_without_type_error (c k : PyVal)
    (h : pyIndex c k ≠ Except.error PyExc.typeError) :
    maybe_get c k = (Maybe.Some c).get k := by
  simp only [maybe_get, Maybe.get]
  cases hp : pyIndex c k with
  | ok v => rfl
  | error e =>
    cases e with
    | keyError => simp
    | indexError => simp
    | typeError => exact absurd hp h

/-- C1 witness: the amended claim at a concrete input — looking a present
key up in a dictionary succeeds identically through `maybe_get` and
`.get`. -/
theorem maybe_get_matches_get_witness :
    maybe_get (PyVal.dict [("k", PyVal.int 1)]) (PyVal.str "k")
      = (Maybe.Some (PyVal.dict [("k", PyVal.int 1)])).get (PyVal.str "k") :=
  maybe_get_matches_get_without_type_error _ _ (fun h => by
    rw [show pyIndex (PyVal.dict [("k", PyVal.int 1)]) (PyVal.str "k")
          = Except.ok (PyVal.int 1) from rfl] at h
    exact Except.noConfusion h)

/-- C10: `Some(None)` is a legal present value distinct from `Nothing()`:
it is `is_some`, it differs from `Nothing()`, `from_maybe` returns the
wrapped `None` whatever default is supplied, yet `as_maybe(None)` is
`Nothing()` — so `as_maybe` after `from_maybe` does not round-trip a
wrapped `None`. -/
theorem some_none_distinct_from_nothing (d : ValueOrThunk PyVal) :
    (Maybe.Some PyVal.none).is_some = true ∧
    Maybe.Some PyVal.none ≠ (Maybe.Nothing : Maybe PyVal) ∧
    (Maybe.Some PyVal.none).from_maybe d = PyVal.none ∧
    as_maybe PyVal.none = Maybe.Nothing ∧
    as_maybe ((Maybe.Some PyVal.none).from_maybe d) ≠ Maybe.Some PyVal.none := by
  refine ⟨rfl, fun h => Maybe.noConfusion h, rfl, rfl, fun h => ?_⟩
  rw [show (Maybe.Some PyVal.none).from_maybe d = PyVal.none from rfl,
      show as_maybe PyVal.none = Maybe.Nothing from rfl] at h
  exact Maybe.noConfusion h

end Gargle
